import Mathlib

/-!
Shallow embedding of the tesseract-sys build script (build.rs) together with
proofs about the claims of its specification.  Pure computations of the
script are translated to Lean functions.  External collaborators (the
environment, the spawned pwd process, filesystem writes, vcpkg, pkg-config
and the bindgen parser) are modelled as oracle fields of a `World` record,
and the observable side effects of a run are collected into an event trace.
-/

namespace BuildScript

/-- Splitting a character list at a separator, mirroring Rust str::split:
the result always has one more element than the number of separators. -/
def splitOnChar (sep : Char) : List Char → List (List Char)
  | [] => [[]]
  | c :: cs =>
    if c = sep then
      [] :: splitOnChar sep cs
    else
      match splitOnChar sep cs with
      | [] => [[c]]
      | h :: t => (c :: h) :: t

/-- Rust str::split at a comma, lifted to String (as used for the three
override environment variables). -/
def rustSplitComma (s : String) : List String :=
  (splitOnChar ',' s.data).map fun l => ⟨l⟩

/-- Rust str::trim: drop whitespace from both ends. -/
def rustTrim (s : String) : String :=
  ⟨((s.data.dropWhile Char.isWhitespace).reverse.dropWhile Char.isWhitespace).reverse⟩

/-- Rust collect of string pieces into one String: concatenation. -/
def strConcat (xs : List String) : String :=
  xs.foldl (fun a b => a ++ b) ""

/-- Render a path given as a component list, joining with slashes. -/
def pathRender : List String → String
  | [] => ""
  | [x] => x
  | x :: xs => x ++ "/" ++ pathRender xs

/-- Whether pat occurs as a contiguous sublist of s. -/
def hasSub (pat : List Char) : List Char → Bool
  | [] => pat.isPrefixOf []
  | c :: cs => pat.isPrefixOf (c :: cs) || hasSub pat cs

/-- String version of hasSub. -/
def hasSubStr (pat s : String) : Bool :=
  hasSub pat.data s.data

/-- One left-to-right scan replacing non-overlapping occurrences of pat by
to, as Rust str::replace does for a non-empty pattern.  The fuel argument
only bounds the recursion; fuel of at least the length of the scanned list
never runs out, because every step consumes at least one character. -/
def rustReplaceAux (pat rep : List Char) : Nat → List Char → List Char
  | _, [] => []
  | 0, c :: cs => c :: cs
  | fuel + 1, c :: cs =>
    if !pat.isEmpty && pat.isPrefixOf (c :: cs) then
      rep ++ rustReplaceAux pat rep fuel ((c :: cs).drop pat.length)
    else
      c :: rustReplaceAux pat rep fuel cs

/-- Rust str::replace, for a non-empty pattern (the only use in the
script is replacing the namespace token by the empty string). -/
def rustReplace (s pat rep : String) : String :=
  ⟨rustReplaceAux pat.data rep.data s.data.length s.data⟩

/-- Which write call site of the script produced a file-write event. -/
inductive ArtifactTag where
  | locationFile
  | capiFile
  | typesFile
deriving DecidableEq

/-- Observable effects of a run of the build script.  The cargo directive
printlns of the source become the structured constructors below; the text
after the directive name is kept verbatim. -/
inductive Event where
  | rerunEnv (name : String)
  | linkSearch (arg : String)
  | linkLib (name : String)
  | vcpkgQuery (pkg : String)
  | pkgProbe (pkg : String) (minVersion : String)
  | execPwd
  | fileWrite (tag : ArtifactTag) (path : String) (content : String)
deriving DecidableEq

/-- Result reported by the vcpkg oracle for a found package; the include
paths are already rendered as strings (to_string_lossy in the source). -/
structure VcpkgLib where
  include_paths : List String
deriving DecidableEq

/-- Result reported by the pkg-config oracle; paths are component lists,
mirroring PathBuf component structure. -/
structure PkResult where
  link_paths : List (List String)
  include_paths : List (List String)
deriving DecidableEq

/-- Accumulated bindgen configuration, mirroring the builder calls made by
the script.  Every builder method appends to the corresponding list. -/
structure BindgenBuilder where
  headerPath : String
  allowlist_functions : List String
  blocklist_types : List String
  blocklist_items : List String
  rustified_enums : List String
  clang_args : List String
deriving DecidableEq

def BindgenBuilder.default : BindgenBuilder := ⟨"", [], [], [], [], []⟩

def BindgenBuilder.header (b : BindgenBuilder) (h : String) : BindgenBuilder :=
  { b with headerPath := h }

def BindgenBuilder.allowlist_function (b : BindgenBuilder) (pat : String) : BindgenBuilder :=
  { b with allowlist_functions := b.allowlist_functions ++ [pat] }

def BindgenBuilder.blocklist_type (b : BindgenBuilder) (t : String) : BindgenBuilder :=
  { b with blocklist_types := b.blocklist_types ++ [t] }

def BindgenBuilder.blocklist_item (b : BindgenBuilder) (t : String) : BindgenBuilder :=
  { b with blocklist_items := b.blocklist_items ++ [t] }

def BindgenBuilder.rustified_enum (b : BindgenBuilder) (t : String) : BindgenBuilder :=
  { b with rustified_enums := b.rustified_enums ++ [t] }

def BindgenBuilder.clang_arg (b : BindgenBuilder) (a : String) : BindgenBuilder :=
  { b with clang_args := b.clang_args ++ [a] }

/-- The inputs of one run: the environment, the stdout of the spawned pwd
process (none models a spawn failure), the per-path success of filesystem
writes, the directory contents of the filesystem (consulted by no function
of the script, kept to state frame properties), the vcpkg and pkg-config
query oracles, the two bindgen generation oracles (none models a parse
failure), and the content of the committed precomputed mac binding file.
The fixtureContent field is modelled from the spec: the hand-authored file
src/public_types_bindings_mac.rs is committed to the repository but is not
among the sources, and the script embeds its bytes verbatim at compile
time via include_str. -/
structure World where
  env : String → Option String
  pwdResult : Option String
  writeOk : String → Bool
  dirExists : String → Bool
  vcpkg : Option VcpkgLib
  pkgConfig : Option PkResult
  genCapi : BindgenBuilder → Option String
  genTypes : BindgenBuilder → Option String
  fixtureContent : String

def TESSERACT_VERSION : String := "5.3.4"

def LIBS_PATH : String := "resources/libs/"

/-- Outcome of reveal_location: ok, a panic inside the function (expect on
the spawn result or on the HOME variable), or an io error returned to the
caller (File::create or writeln failing). -/
inductive RevealResult where
  | ok
  | panicked (msg : String)
  | ioError
deriving DecidableEq

/-- reveal_location: spawn pwd, trim its stdout, and write it followed by a
newline to location_revealed.txt inside the directory named by HOME. -/
def reveal_location (w : World) : List Event × RevealResult :=
  match w.pwdResult with
  | none => ([Event.execPwd], .panicked "Failed to execute command")
  | some out =>
    let path := rustTrim out
    match w.env "HOME" with
    | none => ([Event.execPwd], .panicked "HOME not set")
    | some home_dir =>
      let file_path := home_dir ++ "/location_revealed.txt"
      if w.writeOk file_path then
        ([Event.execPwd, Event.fileWrite .locationFile file_path (path ++ "\n")], .ok)
      else
        ([Event.execPwd], .ioError)

/-- find_bundled_tesseract_lib: run reveal_location (propagating its
failures as panics), build the lib and include paths from the fixed base
and the version pin, emit the two directives, return the include path. -/
def find_bundled_tesseract_lib (w : World) : List Event × Except String (List String) :=
  match reveal_location w with
  | (ev, .panicked msg) => (ev, .error msg)
  | (ev, .ioError) => (ev, .error "Failed to reveal location")
  | (ev, .ok) =>
    let tesseract_dir := LIBS_PATH ++ "tesseract/" ++ TESSERACT_VERSION
    let tesseract_lib_dir := tesseract_dir ++ "/lib"
    let tesseract_include_dir := tesseract_dir ++ "/include"
    (ev ++ [Event.linkSearch ("native=" ++ tesseract_lib_dir), Event.linkLib "tesseract"],
     .ok [tesseract_include_dir])

/-- find_tesseract_system_lib, windows variant: three rerun directives,
then either the three comma-separated overrides used verbatim, or a vcpkg
query whose include paths are collected into a single string. -/
def find_tesseract_system_lib_windows (w : World) : List Event × Except String (List String) :=
  let ev := [Event.rerunEnv "TESSERACT_INCLUDE_PATHS",
             Event.rerunEnv "TESSERACT_LINK_PATHS",
             Event.rerunEnv "TESSERACT_LINK_LIBS"]
  match w.env "TESSERACT_INCLUDE_PATHS", w.env "TESSERACT_LINK_PATHS",
        w.env "TESSERACT_LINK_LIBS" with
  | some include_paths, some link_paths, some link_libs =>
    (ev ++ (rustSplitComma link_paths).map Event.linkSearch
        ++ (rustSplitComma link_libs).map Event.linkLib,
     .ok (rustSplitComma include_paths))
  | _, _, _ =>
    match w.vcpkg with
    | none => (ev ++ [Event.vcpkgQuery "tesseract"], .error "vcpkg find_package failed")
    | some lib => (ev ++ [Event.vcpkgQuery "tesseract"], .ok [strConcat lib.include_paths])

/-- find_tesseract_system_lib, macos/linux/freebsd variant: probe
pkg-config at least version 4.1, emit a link-search directive for the first
link path (debug-formatted, hence quoted) and a link-lib directive, then
return every include path, dropping its last component unless that
component is the literal include. -/
def find_tesseract_system_lib_posix (w : World) : List Event × Except String (List String) :=
  match w.pkgConfig with
  | none => ([Event.pkgProbe "tesseract" "4.1"], .error "pkg-config probe failed")
  | some pk =>
    match pk.link_paths with
    | [] => ([Event.pkgProbe "tesseract" "4.1"], .error "index out of bounds")
    | lp0 :: _ =>
      ([Event.pkgProbe "tesseract" "4.1",
        Event.linkSearch ("native=\"" ++ pathRender lp0 ++ "\""),
        Event.linkLib "tesseract"],
       .ok (pk.include_paths.map fun x =>
         pathRender (if x.getLast? ≠ some "include" then x.dropLast else x)))

/-- find_tesseract_system_lib, variant for every remaining platform: a
bare link-lib directive and an empty include list. -/
def find_tesseract_system_lib_other (_w : World) : List Event × Except String (List String) :=
  ([Event.linkLib "tesseract"], .ok [])

/-- The bindgen configuration built by capi_bindings before the clang
include arguments are appended. -/
def capi_builder_base : BindgenBuilder :=
  ((((((((BindgenBuilder.default.header
    "wrapper_capi.h").allowlist_function
    "^Tess.*").blocklist_type
    "Boxa").blocklist_type
    "Pix").blocklist_type
    "Pixa").blocklist_type
    "_IO_FILE").blocklist_type
    "_IO_codecvt").blocklist_type
    "_IO_marker").blocklist_type
    "_IO_wide_data"

/-- The full bindgen configuration of capi_bindings: the base policy plus
one clang include argument per extra include directory, in order. -/
def capi_builder (clang_extra_include : List String) : BindgenBuilder :=
  clang_extra_include.foldl (fun b inc => b.clang_arg ("-I" ++ inc)) capi_builder_base

/-- capi_bindings: run the generation oracle on the built configuration;
a generation failure is the expect panic of the source. -/
def capi_bindings (w : World) (clang_extra_include : List String) : Except String String :=
  match w.genCapi (capi_builder clang_extra_include) with
  | some bindings => .ok bindings
  | none => .error "Unable to generate capi bindings"

/-- The bindgen configuration built by public_types_bindings before the
clang include arguments are appended. -/
def public_types_builder_base : BindgenBuilder :=
  ((((((((((BindgenBuilder.default.header
    "wrapper_public_types.hpp").rustified_enum
    "tesseract::OcrEngineMode").rustified_enum
    "tesseract::Orientation").rustified_enum
    "tesseract::PageIteratorLevel").rustified_enum
    "tesseract::PageSegMode").rustified_enum
    "tesseract::ParagraphJustification").rustified_enum
    "tesseract::PolyBlockType").rustified_enum
    "tesseract::TextlineOrder").rustified_enum
    "tesseract::WritingDirection").blocklist_item
    "^kPolyBlockNames").blocklist_item
    "^tesseract::kPolyBlockNames"

/-- The full bindgen configuration of public_types_bindings. -/
def public_types_builder (clang_extra_include : List String) : BindgenBuilder :=
  clang_extra_include.foldl (fun b inc => b.clang_arg ("-I" ++ inc)) public_types_builder_base

/-- public_types_bindings, variant for every platform but macos: run the
generation oracle on the built configuration and delete the namespace
token from the generated text with str::replace. -/
def public_types_bindings (w : World) (clang_extra_include : List String) : Except String String :=
  match w.genTypes (public_types_builder clang_extra_include) with
  | some out => .ok (rustReplace out "tesseract_" "")
  | none => .error "Unable to generate public types bindings"

/-- public_types_bindings, macos variant: the compile-time embedded
content of the committed precomputed file; the argument is ignored. -/
def public_types_bindings_mac (w : World) (_clang_extra_include : List String) : String :=
  w.fixtureContent

/-- main, variant for every platform but macos: bundled discovery, then
the capi artifact is generated and written, then the public-types artifact
is generated and written.  Any failing step stops the run. -/
def main (w : World) : List Event × Except String Unit :=
  match find_bundled_tesseract_lib w with
  | (ev, .error e) => (ev, .error e)
  | (ev, .ok clang_extra_include) =>
    match w.env "OUT_DIR" with
    | none => (ev, .error "OUT_DIR not set")
    | some out_path =>
      match capi_bindings w clang_extra_include with
      | .error e => (ev, .error e)
      | .ok capi =>
        let capi_path := out_path ++ "/capi_bindings.rs"
        if w.writeOk capi_path then
          let ev2 := ev ++ [Event.fileWrite .capiFile capi_path capi]
          match public_types_bindings w clang_extra_include with
          | .error e => (ev2, .error e)
          | .ok types_out =>
            let types_path := out_path ++ "/public_types_bindings.rs"
            if w.writeOk types_path then
              (ev2 ++ [Event.fileWrite .typesFile types_path types_out], .ok ())
            else
              (ev2, .error "Could not write public types bindings")
        else
          (ev, .error "Could not write capi bindings")

/-- main, macos variant: identical to main except that the public-types
content is the embedded precomputed file, whose production cannot fail. -/
def main_mac (w : World) : List Event × Except String Unit :=
  match find_bundled_tesseract_lib w with
  | (ev, .error e) => (ev, .error e)
  | (ev, .ok clang_extra_include) =>
    match w.env "OUT_DIR" with
    | none => (ev, .error "OUT_DIR not set")
    | some out_path =>
      match capi_bindings w clang_extra_include with
      | .error e => (ev, .error e)
      | .ok capi =>
        let capi_path := out_path ++ "/capi_bindings.rs"
        if w.writeOk capi_path then
          let ev2 := ev ++ [Event.fileWrite .capiFile capi_path capi]
          let types_out := public_types_bindings_mac w clang_extra_include
          let types_path := out_path ++ "/public_types_bindings.rs"
          if w.writeOk types_path then
            (ev2 ++ [Event.fileWrite .typesFile types_path types_out], .ok ())
          else
            (ev2, .error "Could not write public types bindings")
        else
          (ev, .error "Could not write capi bindings")

/-- Whether an event is a link directive (link-search or link-lib). -/
def isLinkDirective : Event → Bool
  | .linkSearch _ => true
  | .linkLib _ => true
  | _ => false

/-- Folding the clang_arg builder method over a list of include directories
appends one -I argument per directory and touches no other field. -/
theorem foldl_clang_arg (inc : List String) (b : BindgenBuilder) :
    inc.foldl (fun a i => a.clang_arg ("-I" ++ i)) b =
      { b with clang_args := b.clang_args ++ inc.map (fun i => "-I" ++ i) } := by
  induction inc generalizing b with
  | nil => simp
  | cons i is ih =>
    rw [List.foldl_cons, ih]
    simp [BindgenBuilder.clang_arg]

/-- A scan that finds no occurrence of the pattern leaves the list
unchanged. -/
theorem rustReplaceAux_of_hasSub_false (pat rep : List Char) :
    ∀ (fuel : Nat) (s : List Char), hasSub pat s = false →
      rustReplaceAux pat rep fuel s = s := by
  intro fuel
  induction fuel with
  | zero => intro s _; cases s <;> rfl
  | succ n ih =>
    intro s hs
    cases s with
    | nil => rfl
    | cons c cs =>
      rw [hasSub] at hs
      rcases Bool.or_eq_false_iff.mp hs with ⟨h1, h2⟩
      rw [rustReplaceAux, if_neg, ih cs h2]
      simp [h1]

/-- Rust str::replace leaves a string unchanged when the pattern does not
occur in it. -/
theorem rustReplace_of_hasSubStr_false (s pat rep : String)
    (h : hasSubStr pat s = false) : rustReplace s pat rep = s := by
  have h' : hasSub pat.data s.data = false := h
  rw [rustReplace, rustReplaceAux_of_hasSub_false pat.data rep.data s.data.length s.data h']

/-- A world in which every oracle succeeds, used to instantiate the
universally quantified theorems at concrete inputs. -/
def goodWorld : World where
  env := fun n => if n = "HOME" then some "/home/u"
                  else if n = "OUT_DIR" then some "/out" else none
  pwdResult := some "/work\n"
  writeOk := fun _ => true
  dirExists := fun _ => true
  vcpkg := some ⟨["a", "b"]⟩
  pkgConfig := some ⟨[["usr", "lib"]], [["usr", "include"], ["opt", "tess", "deep"]]⟩
  genCapi := fun _ => some "TessOk"
  genTypes := fun _ => some "abc"
  fixtureContent := "mac fixture"

/-- A successful bundled discovery produces exactly the pwd execution, the
location-file write, the two directives, and the pinned include path. -/
theorem find_bundled_ok (w : World) (p home : String)
    (hpwd : w.pwdResult = some p) (hhome : w.env "HOME" = some home)
    (hwr : w.writeOk (home ++ "/location_revealed.txt") = true) :
    find_bundled_tesseract_lib w =
      ([Event.execPwd,
        Event.fileWrite .locationFile (home ++ "/location_revealed.txt") (rustTrim p ++ "\n"),
        Event.linkSearch "native=resources/libs/tesseract/5.3.4/lib",
        Event.linkLib "tesseract"],
       Except.ok ["resources/libs/tesseract/5.3.4/include"]) := by
  simp [find_bundled_tesseract_lib, reveal_location, hpwd, hhome, hwr,
    LIBS_PATH, TESSERACT_VERSION]

/-- Claim C2: the bundled-copy strategy computes its paths purely from the
fixed base directory and the version pin: the emitted link-search path
ends in tesseract/5.3.4/lib, the single returned include path ends in
tesseract/5.3.4/include, and the link directives are exactly one
link-search for the lib path and one link-library for tesseract. -/
theorem C2_bundled_paths (w : World) (p home : String)
    (hpwd : w.pwdResult = some p) (hhome : w.env "HOME" = some home)
    (hwr : w.writeOk (home ++ "/location_revealed.txt") = true) :
    ∃ libdir incdir,
      (find_bundled_tesseract_lib w).snd = Except.ok [incdir] ∧
      (find_bundled_tesseract_lib w).fst.filter isLinkDirective =
        [Event.linkSearch ("native=" ++ libdir), Event.linkLib "tesseract"] ∧
      ("tesseract/5.3.4/lib").data.isSuffixOf libdir.data = true ∧
      ("tesseract/5.3.4/include").data.isSuffixOf incdir.data = true := by
  refine ⟨"resources/libs/tesseract/5.3.4/lib", "resources/libs/tesseract/5.3.4/include",
    ?_, ?_, by decide, by decide⟩
  · rw [find_bundled_ok w p home hpwd hhome hwr]
  · rw [find_bundled_ok w p home hpwd hhome hwr]
    simp [isLinkDirective]

/-- Witness for C2 at the concrete all-success world. -/
theorem C2_bundled_paths_witness :
    ∃ libdir incdir,
      (find_bundled_tesseract_lib goodWorld).snd = Except.ok [incdir] ∧
      (find_bundled_tesseract_lib goodWorld).fst.filter isLinkDirective =
        [Event.linkSearch ("native=" ++ libdir), Event.linkLib "tesseract"] ∧
      ("tesseract/5.3.4/lib").data.isSuffixOf libdir.data = true ∧
      ("tesseract/5.3.4/include").data.isSuffixOf incdir.data = true :=
  C2_bundled_paths goodWorld "/work\n" "/home/u" rfl rfl rfl

/-- Claim C3: on every run the bundled locator first executes pwd and
writes its trimmed output to location_revealed.txt in the HOME directory,
before emitting any discovery output; and it aborts the run when the
command fails, when HOME is unset, or when the file write fails. -/
theorem C3_reveal_location_effects (w : World) :
    (∀ p home, w.pwdResult = some p → w.env "HOME" = some home →
      w.writeOk (home ++ "/location_revealed.txt") = true →
      (find_bundled_tesseract_lib w).fst =
        [Event.execPwd,
         Event.fileWrite .locationFile (home ++ "/location_revealed.txt") (rustTrim p ++ "\n"),
         Event.linkSearch "native=resources/libs/tesseract/5.3.4/lib",
         Event.linkLib "tesseract"]) ∧
    (w.pwdResult = none →
      (find_bundled_tesseract_lib w).snd = Except.error "Failed to execute command") ∧
    (∀ p, w.pwdResult = some p → w.env "HOME" = none →
      (find_bundled_tesseract_lib w).snd = Except.error "HOME not set") ∧
    (∀ p home, w.pwdResult = some p → w.env "HOME" = some home →
      w.writeOk (home ++ "/location_revealed.txt") = false →
      (find_bundled_tesseract_lib w).snd = Except.error "Failed to reveal location") := by
  refine ⟨?_, ?_, ?_, ?_⟩
  · intro p home hpwd hhome hwr
    rw [find_bundled_ok w p home hpwd hhome hwr]
  · intro hpwd
    simp [find_bundled_tesseract_lib, reveal_location, hpwd]
  · intro p hpwd hhome
    simp [find_bundled_tesseract_lib, reveal_location, hpwd, hhome]
  · intro p home hpwd hhome hwr
    simp [find_bundled_tesseract_lib, reveal_location, hpwd, hhome, hwr]

/-- Witness for C3: the trace of the all-success world, and the three
abort outcomes at worlds where pwd fails, HOME is unset, and the file
write fails. -/
theorem C3_reveal_location_effects_witness :
    (find_bundled_tesseract_lib goodWorld).fst =
      [Event.execPwd,
       Event.fileWrite .locationFile "/home/u/location_revealed.txt" "/work\n",
       Event.linkSearch "native=resources/libs/tesseract/5.3.4/lib",
       Event.linkLib "tesseract"] ∧
    (find_bundled_tesseract_lib { goodWorld with pwdResult := none }).snd =
      Except.error "Failed to execute command" ∧
    (find_bundled_tesseract_lib { goodWorld with env := fun _ => none }).snd =
      Except.error "HOME not set" ∧
    (find_bundled_tesseract_lib { goodWorld with writeOk := fun _ => false }).snd =
      Except.error "Failed to reveal location" :=
  ⟨(C3_reveal_location_effects goodWorld).1 "/work\n" "/home/u" rfl rfl rfl,
   (C3_reveal_location_effects { goodWorld with pwdResult := none }).2.1 rfl,
   (C3_reveal_location_effects { goodWorld with env := fun _ => none }).2.2.1 "/work\n" rfl rfl,
   (C3_reveal_location_effects { goodWorld with writeOk := fun _ => false }).2.2.2
     "/work\n" "/home/u" rfl rfl rfl⟩

/-- World in which public-types generation fails and everything else
succeeds. -/
def typesFailWorld : World := { goodWorld with genTypes := fun _ => none }

/-- Claim C1 counterexample: at a world where the public-enum generation
step fails, the run aborts, yet the C-interface artifact has already been
fully written into the output directory. -/
theorem C1_counterexample :
    (main typesFailWorld).snd = Except.error "Unable to generate public types bindings" ∧
    Event.fileWrite .capiFile "/out/capi_bindings.rs" "TessOk" ∈ (main typesFailWorld).fst := by
  exact ⟨rfl, by decide⟩

/-- Claim C1 (amended): a failing step aborts the run before any
subsequent artifact is produced — when the public-enum step fails, no
public-enum artifact write happens and the run ends in a fatal error — but
the C-interface artifact written by the earlier step remains fully written
in the output directory. -/
theorem C1_abort_order (w : World) (p home od capi : String)
    (hpwd : w.pwdResult = some p) (hhome : w.env "HOME" = some home)
    (hwr : w.writeOk (home ++ "/location_revealed.txt") = true)
    (hod : w.env "OUT_DIR" = some od)
    (hcapi : w.genCapi (capi_builder ["resources/libs/tesseract/5.3.4/include"]) = some capi)
    (hwc : w.writeOk (od ++ "/capi_bindings.rs") = true)
    (htypes : w.genTypes (public_types_builder ["resources/libs/tesseract/5.3.4/include"]) = none) :
    (main w).snd = Except.error "Unable to generate public types bindings" ∧
    Event.fileWrite .capiFile (od ++ "/capi_bindings.rs") capi ∈ (main w).fst ∧
    ∀ pa c, Event.fileWrite .typesFile pa c ∉ (main w).fst := by
  refine ⟨?_, ?_, ?_⟩
  · simp [main, find_bundled_ok w p home hpwd hhome hwr, hod, capi_bindings, hcapi, hwc,
      public_types_bindings, htypes]
  · simp [main, find_bundled_ok w p home hpwd hhome hwr, hod, capi_bindings, hcapi, hwc,
      public_types_bindings, htypes]
  · intro pa c
    simp [main, find_bundled_ok w p home hpwd hhome hwr, hod, capi_bindings, hcapi, hwc,
      public_types_bindings, htypes]

/-- Witness for the amended C1 at the concrete world where the types
generation oracle fails. -/
theorem C1_abort_order_witness :
    (main typesFailWorld).snd = Except.error "Unable to generate public types bindings" ∧
    Event.fileWrite .capiFile "/out/capi_bindings.rs" "TessOk" ∈ (main typesFailWorld).fst ∧
    Event.fileWrite .typesFile "/out/public_types_bindings.rs" "x" ∉ (main typesFailWorld).fst := by
  have h := C1_abort_order typesFailWorld "/work\n" "/home/u" "/out" "TessOk"
    rfl rfl rfl rfl rfl rfl rfl
  exact ⟨h.1, h.2.1, h.2.2 "/out/public_types_bindings.rs" "x"⟩

/-- World in which capi generation fails and everything else succeeds. -/
def capiFailWorld : World := { goodWorld with genCapi := fun _ => none }

/-- Claim C7 counterexample: in a world whose filesystem has no bundled
directory at all, the locator succeeds and returns the nonexistent pinned
paths instead of aborting with a discovery error. -/
theorem C7_counterexample :
    (fun _ => false : String → Bool) "resources/libs/tesseract/5.3.4/lib" = false ∧
    ({ goodWorld with dirExists := fun _ => false } : World).dirExists
      "resources/libs/tesseract/5.3.4/include" = false ∧
    (find_bundled_tesseract_lib { goodWorld with dirExists := fun _ => false }).snd =
      Except.ok ["resources/libs/tesseract/5.3.4/include"] :=
  ⟨rfl, rfl, rfl⟩

/-- Claim C7 (amended): the bundled locator never consults the
filesystem: its outcome is identical under any directory state, and under
a successful reveal step it returns the pinned paths unconditionally; a
missing bundled install therefore surfaces later — when the headers
cannot be parsed, the orchestrator aborts at the capi generation step,
not inside the locator. -/
theorem C7_no_existence_check (w : World) (d1 d2 : String → Bool) (p home od : String)
    (hpwd : w.pwdResult = some p) (hhome : w.env "HOME" = some home)
    (hwr : w.writeOk (home ++ "/location_revealed.txt") = true)
    (hod : w.env "OUT_DIR" = some od)
    (hfail : w.genCapi (capi_builder ["resources/libs/tesseract/5.3.4/include"]) = none) :
    find_bundled_tesseract_lib { w with dirExists := d1 } =
      find_bundled_tesseract_lib { w with dirExists := d2 } ∧
    (find_bundled_tesseract_lib w).snd =
      Except.ok ["resources/libs/tesseract/5.3.4/include"] ∧
    (main w).snd = Except.error "Unable to generate capi bindings" := by
  refine ⟨?_, ?_, ?_⟩
  · rw [find_bundled_ok { w with dirExists := d1 } p home hpwd hhome hwr,
        find_bundled_ok { w with dirExists := d2 } p home hpwd hhome hwr]
  · rw [find_bundled_ok w p home hpwd hhome hwr]
  · simp [main, find_bundled_ok w p home hpwd hhome hwr, hod, capi_bindings, hfail]

/-- Witness for the amended C7 at the concrete world where the capi
generation oracle fails (as it does when the pinned headers are absent). -/
theorem C7_no_existence_check_witness :
    find_bundled_tesseract_lib { capiFailWorld with dirExists := fun _ => false } =
      find_bundled_tesseract_lib { capiFailWorld with dirExists := fun _ => true } ∧
    (find_bundled_tesseract_lib capiFailWorld).snd =
      Except.ok ["resources/libs/tesseract/5.3.4/include"] ∧
    (main capiFailWorld).snd = Except.error "Unable to generate capi bindings" :=
  C7_no_existence_check capiFailWorld (fun _ => false) (fun _ => true)
    "/work\n" "/home/u" "/out" rfl rfl rfl rfl rfl

/-- Claim C5 counterexample: the capi configuration blocklists seven named
types, not four as claimed. -/
theorem C5_counterexample :
    (capi_builder []).blocklist_types.length = 7 ∧
    ¬ (capi_builder []).blocklist_types.length = 4 := by
  decide

/-- Claim C5 (amended): the capi generator allowlists exactly the
^Tess.* function pattern, blocklists exactly seven named types — three of
the image library (Boxa, Pix, Pixa) and four platform stdio internals —
appends one -I header-search argument per extra include directory, and in
combination with a generation oracle that honours the blocklist the
artifact contains none of the seven names; when nothing can be generated
the step aborts with a fatal error. -/
theorem C5_capi_policy (w : World) (inc : List String) (out : String)
    (hgen : w.genCapi (capi_builder inc) = some out)
    (hresp : ∀ t, t ∈ (capi_builder inc).blocklist_types → hasSubStr t out = false) :
    (capi_builder inc).allowlist_functions = ["^Tess.*"] ∧
    (capi_builder inc).blocklist_types =
      ["Boxa", "Pix", "Pixa", "_IO_FILE", "_IO_codecvt", "_IO_marker", "_IO_wide_data"] ∧
    (capi_builder inc).clang_args = inc.map (fun i => "-I" ++ i) ∧
    capi_bindings w inc = Except.ok out ∧
    (∀ t, t ∈ (["Boxa", "Pix", "Pixa", "_IO_FILE", "_IO_codecvt", "_IO_marker",
        "_IO_wide_data"] : List String) → hasSubStr t out = false) ∧
    (∀ w', w'.genCapi (capi_builder inc) = none →
      capi_bindings w' inc = Except.error "Unable to generate capi bindings") := by
  have hbt : (capi_builder inc).blocklist_types =
      ["Boxa", "Pix", "Pixa", "_IO_FILE", "_IO_codecvt", "_IO_marker", "_IO_wide_data"] := by
    rw [capi_builder, foldl_clang_arg]
    rfl
  refine ⟨?_, hbt, ?_, ?_, ?_, ?_⟩
  · rw [capi_builder, foldl_clang_arg]
    rfl
  · rw [capi_builder, foldl_clang_arg]
    rfl
  · simp [capi_bindings, hgen]
  · intro t ht
    exact hresp t (by rw [hbt]; exact ht)
  · intro w' h
    simp [capi_bindings, h]

/-- Witness for the amended C5 at the concrete all-success world. -/
theorem C5_capi_policy_witness :
    (capi_builder ["x"]).blocklist_types =
      ["Boxa", "Pix", "Pixa", "_IO_FILE", "_IO_codecvt", "_IO_marker", "_IO_wide_data"] ∧
    capi_bindings goodWorld ["x"] = Except.ok "TessOk" := by
  have h := C5_capi_policy goodWorld ["x"] "TessOk" rfl (by decide)
  exact ⟨h.2.1, h.2.2.2.1⟩

/-- World whose types generation oracle yields text in which deleting the
namespace token forms a fresh occurrence of the token. -/
def tokenSurviveWorld : World :=
  { goodWorld with genTypes := fun _ => some "tesstesseract_eract_" }

/-- Claim C6 counterexample: one generator output on which the single-pass
deletion of the namespace token leaves an artifact that still contains the
token. -/
theorem C6_counterexample :
    public_types_bindings tokenSurviveWorld [] = Except.ok "tesseract_" ∧
    hasSubStr "tesseract_" "tesseract_" = true :=
  ⟨rfl, rfl⟩

/-- Claim C6 (amended): the public-enum generator registers exactly the
eight named enumerations, excludes kPolyBlockNames and its namespaced
alias, appends one -I argument per extra include directory, and emits the
generated text after one left-to-right deletion pass of every occurrence
of the namespace token (Rust str::replace); the result is token-free
whenever the generated text was token-free, but deleting occurrences can
juxtapose fragments into a fresh occurrence, so the emitted text is not
token-free for every generator output. -/
theorem C6_enum_policy (w : World) (inc : List String) (out : String)
    (hgen : w.genTypes (public_types_builder inc) = some out) :
    (public_types_builder inc).rustified_enums =
      ["tesseract::OcrEngineMode", "tesseract::Orientation", "tesseract::PageIteratorLevel",
       "tesseract::PageSegMode", "tesseract::ParagraphJustification",
       "tesseract::PolyBlockType", "tesseract::TextlineOrder",
       "tesseract::WritingDirection"] ∧
    (public_types_builder inc).blocklist_items =
      ["^kPolyBlockNames", "^tesseract::kPolyBlockNames"] ∧
    (public_types_builder inc).clang_args = inc.map (fun i => "-I" ++ i) ∧
    public_types_bindings w inc = Except.ok (rustReplace out "tesseract_" "") ∧
    (hasSubStr "tesseract_" out = false →
      hasSubStr "tesseract_" (rustReplace out "tesseract_" "") = false) := by
  refine ⟨?_, ?_, ?_, ?_, ?_⟩
  · rw [public_types_builder, foldl_clang_arg]
    rfl
  · rw [public_types_builder, foldl_clang_arg]
    rfl
  · rw [public_types_builder, foldl_clang_arg]
    rfl
  · simp [public_types_bindings, hgen]
  · intro h
    rw [rustReplace_of_hasSubStr_false out "tesseract_" "" h]
    exact h

/-- Witness for the amended C6 at the all-success world, whose generated
text abc is token-free. -/
theorem C6_enum_policy_witness :
    public_types_bindings goodWorld ["x"] = Except.ok (rustReplace "abc" "tesseract_" "") ∧
    hasSubStr "tesseract_" (rustReplace "abc" "tesseract_" "") = false := by
  have h := C6_enum_policy goodWorld ["x"] "abc" rfl
  exact ⟨h.2.2.2.1, h.2.2.2.2 (by decide)⟩

/-- World on the package-manager platform with all three overrides set. -/
def winOverrideWorld : World :=
  { goodWorld with env := fun n =>
      if n = "TESSERACT_INCLUDE_PATHS" then some "i1,i2"
      else if n = "TESSERACT_LINK_PATHS" then some "p1"
      else if n = "TESSERACT_LINK_LIBS" then some "l1,l2" else none }

/-- Claim C4 counterexample: with the include override absent the locator
falls back to vcpkg, but when vcpkg reports the two include paths a and b
the returned result is the single concatenated string ab, not the reported
paths. -/
theorem C4_counterexample :
    goodWorld.env "TESSERACT_INCLUDE_PATHS" = none ∧
    goodWorld.vcpkg = some ⟨["a", "b"]⟩ ∧
    (find_tesseract_system_lib_windows goodWorld).snd = Except.ok ["ab"] ∧
    Except.ok ["ab"] ≠ (Except.ok ["a", "b"] : Except String (List String)) := by
  refine ⟨rfl, rfl, rfl, ?_⟩
  intro h
  injection h with h1
  injection h1 with h2 h3
  exact absurd h2 (by decide)

/-- Claim C4 (amended): with all three overrides set the locator uses the
comma-separated values verbatim — one link-search directive per link
path, one link-library directive per library name, the parsed include
paths returned — and never queries vcpkg; with any override absent it
falls back fully to the vcpkg query with no partial mix, and returns a
single-element list holding the concatenation of the include paths that
vcpkg reports. -/
theorem C4_windows_locate (w : World) (ip lp ll : String) (lib : VcpkgLib) :
    ((w.env "TESSERACT_INCLUDE_PATHS" = some ip → w.env "TESSERACT_LINK_PATHS" = some lp →
      w.env "TESSERACT_LINK_LIBS" = some ll →
      (find_tesseract_system_lib_windows w).snd = Except.ok (rustSplitComma ip) ∧
      (find_tesseract_system_lib_windows w).fst =
        [Event.rerunEnv "TESSERACT_INCLUDE_PATHS", Event.rerunEnv "TESSERACT_LINK_PATHS",
         Event.rerunEnv "TESSERACT_LINK_LIBS"]
        ++ (rustSplitComma lp).map Event.linkSearch
        ++ (rustSplitComma ll).map Event.linkLib ∧
      ∀ q, Event.vcpkgQuery q ∉ (find_tesseract_system_lib_windows w).fst)) ∧
    ((w.env "TESSERACT_INCLUDE_PATHS" = none ∨ w.env "TESSERACT_LINK_PATHS" = none ∨
      w.env "TESSERACT_LINK_LIBS" = none) → w.vcpkg = some lib →
      (find_tesseract_system_lib_windows w).snd = Except.ok [strConcat lib.include_paths] ∧
      (find_tesseract_system_lib_windows w).fst =
        [Event.rerunEnv "TESSERACT_INCLUDE_PATHS", Event.rerunEnv "TESSERACT_LINK_PATHS",
         Event.rerunEnv "TESSERACT_LINK_LIBS", Event.vcpkgQuery "tesseract"]) := by
  constructor
  · intro h1 h2 h3
    refine ⟨?_, ?_, ?_⟩
    · simp [find_tesseract_system_lib_windows, h1, h2, h3]
    · simp [find_tesseract_system_lib_windows, h1, h2, h3]
    · intro q
      simp [find_tesseract_system_lib_windows, h1, h2, h3]
  · intro habs hv
    rcases habs with h | h | h
    · simp [find_tesseract_system_lib_windows, h, hv]
    · cases hip : w.env "TESSERACT_INCLUDE_PATHS" <;>
        simp [find_tesseract_system_lib_windows, hip, h, hv]
    · cases hip : w.env "TESSERACT_INCLUDE_PATHS" <;>
        cases hlp : w.env "TESSERACT_LINK_PATHS" <;>
        simp [find_tesseract_system_lib_windows, hip, hlp, h, hv]

/-- Witness for the amended C4: the override world uses the overrides,
and the all-success world (include override absent) falls back to the
concatenated vcpkg result. -/
theorem C4_windows_locate_witness :
    (find_tesseract_system_lib_windows winOverrideWorld).snd =
      Except.ok (rustSplitComma "i1,i2") ∧
    (find_tesseract_system_lib_windows goodWorld).snd =
      Except.ok [strConcat ["a", "b"]] := by
  have h1 := (C4_windows_locate winOverrideWorld "i1,i2" "p1" "l1,l2" ⟨["a", "b"]⟩).1
    rfl rfl rfl
  have h2 := (C4_windows_locate goodWorld "x" "x" "x" ⟨["a", "b"]⟩).2 (Or.inl rfl) rfl
  exact ⟨h1.1, h2.1⟩

/-- Claim C8: on the package-config platform the locator returns each
reported include path unchanged when its trailing segment is the literal
include, and with the last segment dropped otherwise. -/
theorem C8_pkgconfig_include_normalization (w : World) (pk : PkResult)
    (lp0 : List String) (rest : List (List String)) (i : Nat) (x : List String)
    (hpk : w.pkgConfig = some pk) (hlp : pk.link_paths = lp0 :: rest)
    (hx : pk.include_paths.get? i = some x) :
    ∃ l, (find_tesseract_system_lib_posix w).snd = Except.ok l ∧
      l.get? i = some (if x.getLast? = some "include" then pathRender x
                       else pathRender x.dropLast) := by
  simp only [find_tesseract_system_lib_posix, hpk, hlp]
  refine ⟨_, rfl, ?_⟩
  rw [List.get?_map, hx]
  by_cases hc : x.getLast? = some "include" <;> simp [hc]

/-- Witness for C8 at the all-success world: the second reported path
opt/tess/deep does not end in include, so its last segment is dropped. -/
theorem C8_pkgconfig_include_normalization_witness :
    ∃ l, (find_tesseract_system_lib_posix goodWorld).snd = Except.ok l ∧
      l.get? 1 = some (if (["opt", "tess", "deep"] : List String).getLast? = some "include"
                       then pathRender ["opt", "tess", "deep"]
                       else pathRender (["opt", "tess", "deep"] : List String).dropLast) :=
  C8_pkgconfig_include_normalization goodWorld
    ⟨[["usr", "lib"]], [["usr", "include"], ["opt", "tess", "deep"]]⟩
    ["usr", "lib"] [] 1 ["opt", "tess", "deep"] rfl rfl rfl

/-- Claim C9: on the incompatible platform the public-enum generator does
no parsing — the run is unaffected by the types generation oracle — the
generator ignores its include argument and returns the embedded
precomputed file content, and the written public-enum artifact is exactly
that content. -/
theorem C9_mac_precomputed (w : World) (p home od capi : String)
    (inc1 inc2 : List String) (g1 g2 : BindgenBuilder → Option String)
    (hpwd : w.pwdResult = some p) (hhome : w.env "HOME" = some home)
    (hwr : w.writeOk (home ++ "/location_revealed.txt") = true)
    (hod : w.env "OUT_DIR" = some od)
    (hcapi : w.genCapi (capi_builder ["resources/libs/tesseract/5.3.4/include"]) = some capi)
    (hwc : w.writeOk (od ++ "/capi_bindings.rs") = true)
    (hwt : w.writeOk (od ++ "/public_types_bindings.rs") = true) :
    public_types_bindings_mac w inc1 = w.fixtureContent ∧
    public_types_bindings_mac w inc1 = public_types_bindings_mac w inc2 ∧
    main_mac { w with genTypes := g1 } = main_mac { w with genTypes := g2 } ∧
    (main_mac w).snd = Except.ok () ∧
    Event.fileWrite .typesFile (od ++ "/public_types_bindings.rs") w.fixtureContent ∈
      (main_mac w).fst := by
  refine ⟨rfl, rfl, ?_, ?_, ?_⟩
  · rfl
  · simp [main_mac, find_bundled_ok w p home hpwd hhome hwr, hod, capi_bindings, hcapi,
      hwc, hwt, public_types_bindings_mac]
  · simp [main_mac, find_bundled_ok w p home hpwd hhome hwr, hod, capi_bindings, hcapi,
      hwc, hwt, public_types_bindings_mac]

/-- Witness for C9 at the concrete all-success world. -/
theorem C9_mac_precomputed_witness :
    public_types_bindings_mac goodWorld [] = goodWorld.fixtureContent ∧
    (main_mac goodWorld).snd = Except.ok () ∧
    Event.fileWrite .typesFile "/out/public_types_bindings.rs" "mac fixture" ∈
      (main_mac goodWorld).fst := by
  have h := C9_mac_precomputed goodWorld "/work\n" "/home/u" "/out" "TessOk" [] ["z"]
    (fun _ => none) (fun _ => some "y") rfl rfl rfl rfl rfl rfl rfl
  exact ⟨h.1, h.2.2.2.1, h.2.2.2.2⟩

/-- Claim C10: the pipeline is a deterministic function of its environment
and oracle inputs: two runs over worlds that agree on every input produce
identical traces and outcomes, on both orchestrator variants. -/
theorem C10_determinism (w1 w2 : World)
    (h1 : w1.env = w2.env) (h2 : w1.pwdResult = w2.pwdResult)
    (h3 : w1.writeOk = w2.writeOk) (h4 : w1.dirExists = w2.dirExists)
    (h5 : w1.vcpkg = w2.vcpkg) (h6 : w1.pkgConfig = w2.pkgConfig)
    (h7 : w1.genCapi = w2.genCapi) (h8 : w1.genTypes = w2.genTypes)
    (h9 : w1.fixtureContent = w2.fixtureContent) :
    main w1 = main w2 ∧ main_mac w1 = main_mac w2 := by
  have hw : w1 = w2 := by
    cases w1; cases w2; simp_all
  rw [hw]
  exact ⟨rfl, rfl⟩

/-- Witness for C10 at the concrete all-success world. -/
theorem C10_determinism_witness :
    main goodWorld = main goodWorld ∧ main_mac goodWorld = main_mac goodWorld :=
  C10_determinism goodWorld goodWorld rfl rfl rfl rfl rfl rfl rfl rfl rfl

end BuildScript
